import Mathlib

/-!
Verification development for the gRPC client proxy adapter
(`src/packages/microservices/client/client-grpc.ts`, class `ClientGrpcProxy`).

The adapter converts gRPC invocation styles (unary, server-streaming,
client-streaming, bidirectional) into RxJS `Observable`s.  We shallowly embed:

* the per-invocation event handlers of `createStreamServiceMethod` and
  `createUnaryServiceMethod` (transcribed line by line from the source),
* the RxJS subscriber discipline (a subscriber that has received a terminal
  event, or has been unsubscribed, is closed: further `next`/`error`/
  `complete` calls are dropped and the teardown function runs exactly once),
  which the source relies on for its lifecycle guarantees,
* the client registry (`getClientByServiceName`, `createClientByServiceName`,
  `close`) and the unsupported-operation surface (`connect`, `send`,
  `publish`, `dispatchEvent`, `on`, `unwrap`, the `status` getter).

Response values and metadata payloads are modelled as `Nat`; nothing in the
adapter inspects them.
-/

/-- Source line 14: `const GRPC_CANCELLED = 'Cancelled';`. -/
def GRPC_CANCELLED : String := "Cancelled"

/-- A transport-level error object as the adapter inspects it: the handlers
read `error.details` and `error.code` (the latter may be absent). -/
structure GrpcError where
  message : String
  details : String
  code : Option Nat
deriving DecidableEq, Repr

/-- The stable error shape handed to consumers. -/
structure NormalizedError where
  message : String
  details : String
  code : Option Nat
deriving DecidableEq, Repr

/-- Modelled from the spec: `serializeError` is inherited from `ClientProxy`
(not under `src/`); per the Error Normalizer contract it is a pure total map
producing a stable error shape that keeps the human-readable message and the
original status/detail fields, and it never throws. -/
def serializeError (e : GrpcError) : NormalizedError :=
  { message := e.message, details := e.details, code := e.code }

/-- An event delivered on the consumer-facing Response Stream. -/
inductive ObsEvent where
  | next (v : Nat)
  | error (e : NormalizedError)
  | complete
deriving DecidableEq, Repr

/-- Whether a Response Stream event is terminal (error or completion). -/
def ObsEvent.isTerminal : ObsEvent → Bool
  | .next _ => false
  | .error _ => true
  | .complete => true

/-- Whether a Response Stream event is a value emission. -/
def ObsEvent.isNext : ObsEvent → Bool
  | .next _ => true
  | _ => false

/-- Number of terminal events in a delivered-event list. -/
def terminalCount (l : List ObsEvent) : Nat :=
  (l.filter ObsEvent.isTerminal).length

/-- Number of value emissions in a delivered-event list. -/
def nextCount (l : List ObsEvent) : Nat :=
  (l.filter ObsEvent.isNext).length

/-!
## Unary adapter completion callbacks

`createUnaryServiceMethod` (source lines 227-293) builds, per invocation, a
gRPC completion callback `(error, data) => ...`.  There are two shapes:

* the client-streaming shape (lines 238-275), used when the method has
  `requestStream` and the first argument exposes `subscribe`;
* the plain shape (lines 277-291) otherwise.

Each callback invocation is modelled as a pure function from the callback
arguments (and, for the client-streaming shape, the `isClientCanceled` flag
it closes over) to the observer calls it performs, plus whether it called
`call.destroy()`.
-/

/-- Transcription of the client-streaming unary completion callback
(source lines 241-253):

```
(error, data) => {
  if (error) {
    if (error.details === GRPC_CANCELLED || error.code === 1) {
      call.destroy();
      if (isClientCanceled) { return; }
    }
    return observer.error(this.serializeError(error));
  }
  observer.next(data);
  observer.complete();
}
```

Result: (did the callback invoke `call.destroy()`, observer calls made). -/
def unaryStreamCallback (isClientCanceled : Bool) (error : Option GrpcError)
    (data : Nat) : Bool × List ObsEvent :=
  match error with
  | some e =>
    if e.details = GRPC_CANCELLED ∨ e.code = some 1 then
      if isClientCanceled then (true, [])
      else (true, [ObsEvent.error (serializeError e)])
    else (false, [ObsEvent.error (serializeError e)])
  | none => (false, [ObsEvent.next data, ObsEvent.complete])

/-- Transcription of the plain unary completion callback
(source lines 278-284):

```
(error, data) => {
  if (error) { return observer.error(this.serializeError(error)); }
  observer.next(data);
  observer.complete();
}
```

This shape has no cancellation flag and never calls `call.destroy()`. -/
def unaryPlainCallback (error : Option GrpcError) (data : Nat) :
    List ObsEvent :=
  match error with
  | some e => [ObsEvent.error (serializeError e)]
  | none => [ObsEvent.next data, ObsEvent.complete]

/-!
## Streaming adapter state machine

`createStreamServiceMethod` (source lines 164-225) wires, per subscription,
the gRPC call's `data`/`error`/`end` events to observer calls, plus a
teardown function.  We embed one subscription as a state machine driven by
transport events and consumer unsubscription.  The RxJS subscriber
discipline is part of the machine: `subClosed` records that the subscriber
is closed (terminal event delivered or consumer unsubscribed); a closed
subscriber drops observer calls, and closing runs the teardown body once.
The transport marks the call `finished` when it delivers a terminal
(`error` or `end`) event, and delivers events to handlers only while they
remain registered (`listeners`).
-/

/-- The per-invocation view of the gRPC Call Handle that the streaming
adapter reads and mutates: the `finished` flag it tests, whether
`destroy()` was called, whether the `data`/`error`/`end` listeners are
still registered (`removeAllListeners`), and how many times `cancel()`
was invoked. -/
structure CallHandle where
  finished : Bool
  destroyed : Bool
  listeners : Bool
  cancelCount : Nat
deriving DecidableEq, Repr

/-- State of one streaming-adapter subscription (source lines 170-222):
the call handle, the `isClientCanceled` flag, whether the upstream
subscription is live, whether the RxJS subscriber is closed, and the
events delivered to the consumer so far, in order. -/
structure StreamState where
  call : CallHandle
  isClientCanceled : Bool
  upstream : Bool
  subClosed : Bool
  emitted : List ObsEvent
deriving DecidableEq, Repr

/-- A freshly opened call: not finished, not destroyed, listeners attached
(lines 192-209), never cancelled. -/
def initCall : CallHandle :=
  { finished := false, destroyed := false, listeners := true, cancelCount := 0 }

/-- Initial subscription state (lines 171-191): `isClientCanceled = false`,
a fresh call, upstream subscription present iff the method is
request-streaming and the first argument is a subscribable, subscriber
open, nothing delivered. -/
def initStreamState (hasUpstream : Bool) : StreamState :=
  { call := initCall, isClientCanceled := false, upstream := hasUpstream,
    subClosed := false, emitted := [] }

/-- Transcription of the streaming teardown body (source lines 210-221):

```
return () => {
  if (upstreamSubscription) { upstreamSubscription.unsubscribe(); upstreamSubscription = null; }
  if (call.finished) { return undefined; }
  isClientCanceled = true;
  call.cancel();
};
```
-/
def streamTeardown (s : StreamState) : StreamState :=
  let s1 := { s with upstream := false }
  if s1.call.finished then s1
  else { s1 with isClientCanceled := true,
                 call := { s1.call with cancelCount := s1.call.cancelCount + 1 } }

/-- RxJS `observer.next`: dropped when the subscriber is closed. -/
def obsNext (s : StreamState) (v : Nat) : StreamState :=
  if s.subClosed then s
  else { s with emitted := s.emitted ++ [ObsEvent.next v] }

/-- RxJS `observer.error`: on an open subscriber, delivers the error,
closes the subscriber and runs the teardown; dropped when closed. -/
def obsError (s : StreamState) (e : NormalizedError) : StreamState :=
  if s.subClosed then s
  else streamTeardown
    { s with subClosed := true, emitted := s.emitted ++ [ObsEvent.error e] }

/-- RxJS `observer.complete`: on an open subscriber, delivers completion,
closes the subscriber and runs the teardown; dropped when closed. -/
def obsComplete (s : StreamState) : StreamState :=
  if s.subClosed then s
  else streamTeardown
    { s with subClosed := true, emitted := s.emitted ++ [ObsEvent.complete] }

/-- Transcription of the `data` handler (source line 192):
`call.on('data', (data) => observer.next(data));`. -/
def streamOnData (s : StreamState) (v : Nat) : StreamState :=
  obsNext s v

/-- Transcription of the `error` handler (source lines 193-201):

```
call.on('error', (error) => {
  if (error.details === GRPC_CANCELLED) {
    call.destroy();
    if (isClientCanceled) { return; }
  }
  observer.error(this.serializeError(error));
});
```
-/
def streamOnError (s : StreamState) (e : GrpcError) : StreamState :=
  if e.details = GRPC_CANCELLED then
    let s1 := { s with call := { s.call with destroyed := true } }
    if s1.isClientCanceled then s1
    else obsError s1 (serializeError e)
  else obsError s (serializeError e)

/-- Transcription of the `end` handler (source lines 202-209):

```
call.on('end', () => {
  if (upstreamSubscription) { upstreamSubscription.unsubscribe(); upstreamSubscription = null; }
  call.removeAllListeners();
  observer.complete();
});
```
-/
def streamOnEnd (s : StreamState) : StreamState :=
  let s1 := { s with upstream := false }
  let s2 := { s1 with call := { s1.call with listeners := false } }
  obsComplete s2

/-- External stimuli of one streaming subscription: a transport `data`,
`error` or `end` event, or the consumer unsubscribing. -/
inductive StreamEvent where
  | data (v : Nat)
  | transportError (e : GrpcError)
  | endEv
  | unsub
deriving DecidableEq, Repr

/-- One machine step.  Transport events reach the handlers only while the
listeners are registered; a terminal transport event (`error` or `end`)
marks the call `finished` before its handler runs.  Consumer
unsubscription closes the subscriber and runs the teardown, and is a
no-op on an already closed subscription (RxJS `Subscription.unsubscribe`
is guarded by its `closed` flag). -/
def stepStream (s : StreamState) : StreamEvent → StreamState
  | .data v => if s.call.listeners then streamOnData s v else s
  | .transportError e =>
    let s1 := { s with call := { s.call with finished := true } }
    if s.call.listeners then streamOnError s1 e else s1
  | .endEv =>
    let s1 := { s with call := { s.call with finished := true } }
    if s.call.listeners then streamOnEnd s1 else s1
  | .unsub =>
    if s.subClosed then s
    else streamTeardown { s with subClosed := true }

/-- Run a streaming subscription over a list of stimuli. -/
def runStream (s : StreamState) (evs : List StreamEvent) : StreamState :=
  evs.foldl stepStream s

/-!
## Request-stream (upstream) wiring

Both adapters subscribe to a consumer-supplied request stream with the same
three handlers (source lines 186-190 and 261-266):

```
upstreamSubjectOrData.subscribe(
  (val) => call.write(val),
  (err) => call.emit('error', err),
  () => call.end(),
);
```

We model the request stream as the list of events it emits and record the
actions performed on the call.  The RxJS subscription stops after the
stream's own terminal event (`error` or `complete`); `stopped` enforces
this.
-/

/-- An event emitted by the consumer-supplied request stream. -/
inductive UpstreamEvent where
  | next (v : Nat)
  | uerror (e : GrpcError)
  | complete
deriving DecidableEq, Repr

/-- Actions the upstream subscription performed on the Call Handle:
values written (in order), errors re-emitted on the call, number of
`call.end()` invocations, and whether the subscription has stopped. -/
structure UpstreamActions where
  writes : List Nat
  emittedErrors : List GrpcError
  endCount : Nat
  stopped : Bool
deriving DecidableEq, Repr

/-- Initial (just-subscribed) upstream action record. -/
def initUpstream : UpstreamActions :=
  { writes := [], emittedErrors := [], endCount := 0, stopped := false }

/-- Effect of one request-stream event under the handlers of source lines
186-190 / 261-266, after which an error or completion stops the
subscription. -/
def upstreamStep (a : UpstreamActions) : UpstreamEvent → UpstreamActions
  | .next v =>
    if a.stopped then a else { a with writes := a.writes ++ [v] }
  | .uerror e =>
    if a.stopped then a
    else { a with emittedErrors := a.emittedErrors ++ [e], stopped := true }
  | .complete =>
    if a.stopped then a
    else { a with endCount := a.endCount + 1, stopped := true }

/-- Run the upstream subscription over the request stream's events. -/
def runUpstream (evs : List UpstreamEvent) : UpstreamActions :=
  evs.foldl upstreamStep initUpstream

/-!
## Arguments, stream detection, and how each adapter opens the call
-/

/-- A positional argument of a generated service method: a plain request
value, a request stream (anything exposing a `subscribe` function), or a
metadata object. -/
inductive GArg where
  | data (v : Nat)
  | stream (evs : List UpstreamEvent)
  | metadata (m : Nat)
deriving DecidableEq, Repr

/-- Structural stream detection, `isFunction(x.subscribe)`: only the
stream shape exposes `subscribe`. -/
def hasSubscribe : GArg → Bool
  | .stream _ => true
  | _ => false

/-- Transcription of source lines 174-178 (identical at lines 233-235):
`args[0] && isFunction(args[0].subscribe)`; an absent first argument is
falsy. -/
def isUpstreamSubject (args : List GArg) : Bool :=
  match args.head? with
  | some a => hasSubscribe a
  | none => false

/-- How the streaming adapter opens the underlying call. -/
inductive OpenArgs where
  | metadataOnly (m : Option GArg)
  | positional (args : List GArg)
deriving DecidableEq, Repr

/-- Transcription of source lines 180-183:

```
const call = isRequestStream && isUpstreamSubject
  ? client[methodName](maybeMetadata)
  : client[methodName](...args);
```

where `maybeMetadata = args[1]`. -/
def streamCallOpen (isRequestStream : Bool) (args : List GArg) : OpenArgs :=
  if isRequestStream && isUpstreamSubject args then
    OpenArgs.metadataOnly (args.get? 1)
  else OpenArgs.positional args

/-- An argument the unary client-streaming shape passes when opening the
call: the metadata object or the completion callback. -/
inductive UnaryOpenArg where
  | metadataArg (m : GArg)
  | callbackArg
deriving DecidableEq, Repr

/-- Transcription of source lines 240-259: `callArgs = [callback]`, then
`if (maybeMetadata) callArgs.unshift(maybeMetadata)`, then
`client[methodName](...callArgs)`. -/
def unaryStreamCallArgs (args : List GArg) : List UnaryOpenArg :=
  match args.get? 1 with
  | some m => [UnaryOpenArg.metadataArg m, UnaryOpenArg.callbackArg]
  | none => [UnaryOpenArg.callbackArg]

/-!
## Unary teardown bodies and the RxJS unsubscribe guard
-/

/-- Per-subscription state of a unary invocation: the call's `finished`
flag, the `isClientCanceled` flag (only the client-streaming shape ever
reads or writes it; the plain shape has no such variable), the number of
`cancel()` calls, and whether the upstream subscription is live. -/
structure UnaryState where
  finished : Bool
  isClientCanceled : Bool
  cancelCount : Nat
  upstreamSubscribed : Bool
deriving DecidableEq, Repr

/-- Transcription of the client-streaming unary teardown (source lines
268-274):

```
return () => {
  upstreamSubscription.unsubscribe();
  if (!call.finished) { isClientCanceled = true; call.cancel(); }
};
```
-/
def unaryStreamTeardownBody (u : UnaryState) : UnaryState :=
  let u1 := { u with upstreamSubscribed := false }
  if u1.finished then u1
  else { u1 with isClientCanceled := true, cancelCount := u1.cancelCount + 1 }

/-- Transcription of the plain unary teardown (source lines 286-290):

```
return () => {
  if (!call.finished) { call.cancel(); }
};
```

No cancellation flag exists in this shape, so none is set. -/
def unaryPlainTeardownBody (u : UnaryState) : UnaryState :=
  if u.finished then u else { u with cancelCount := u.cancelCount + 1 }

/-- An RxJS subscription around a teardown body over state `σ`: `closed`
is the subscription's own flag; `unsubscribe` is a no-op once closed. -/
structure RxSub (σ : Type) where
  closed : Bool
  st : σ
deriving DecidableEq, Repr

/-- RxJS `Subscription.unsubscribe`: runs the teardown body exactly once,
on the first call. -/
def rxUnsubscribe {σ : Type} (td : σ → σ) (r : RxSub σ) : RxSub σ :=
  if r.closed then r else { closed := true, st := td r.st }

/-!
## Method dispatch and lazy invocation
-/

/-- The streaming-shape flags of a resolved gRPC method (read off the
method accessor: `client[methodName].requestStream` /
`client[methodName].responseStream`). -/
structure MethodDescriptor where
  requestStream : Bool
  responseStream : Bool
deriving DecidableEq, Repr

/-- Which adapter a generated service method uses. -/
inductive ServiceMethodKind where
  | streaming
  | unary
deriving DecidableEq, Repr

/-- Transcription of `createServiceMethod` (source lines 155-162):

```
return client[methodName].responseStream
  ? this.createStreamServiceMethod(client, methodName)
  : this.createUnaryServiceMethod(client, methodName);
```
-/
def createServiceMethod (desc : MethodDescriptor) : ServiceMethodKind :=
  if desc.responseStream then ServiceMethodKind.streaming
  else ServiceMethodKind.unary

/-- How the dispatched method will open the underlying call, by adapter
and input shape. -/
inductive DispatchedOpen where
  | streamingOpen (o : OpenArgs)
  | unaryStreamOpen (o : List UnaryOpenArg)
  | unaryPlainOpen (args : List GArg)
deriving DecidableEq, Repr

/-- The call-open behaviour of the method produced by `createServiceMethod`:
the streaming adapter opens per lines 180-183; the unary adapter opens per
lines 237-259 (client-streaming shape) or lines 277-284 (plain shape). -/
def serviceMethodOpen (desc : MethodDescriptor) (args : List GArg) :
    DispatchedOpen :=
  match createServiceMethod desc with
  | ServiceMethodKind.streaming =>
    DispatchedOpen.streamingOpen (streamCallOpen desc.requestStream args)
  | ServiceMethodKind.unary =>
    if desc.requestStream && isUpstreamSubject args then
      DispatchedOpen.unaryStreamOpen (unaryStreamCallArgs args)
    else DispatchedOpen.unaryPlainOpen args

/-- What one subscription of the returned Observable sets up: the identity
of the Call Handle it creates (a fresh transport-supplied identifier), the
arguments the call is opened with, and the initial cancellation flag. -/
structure SubscribeSetup where
  callId : Nat
  opened : DispatchedOpen
  isClientCanceled : Bool
deriving DecidableEq, Repr

/-- The result of invoking a generated service method (source lines
168-224 and 231-292): both adapters immediately return
`new Observable(observer => ...)`.  The `Observable` constructor stores
the subscriber function without running it, so the invocation itself
performs no transport action; `transportActions` records the calls opened
at invocation time, and `onSubscribe` describes what running the stored
subscriber function does, per fresh Call Handle supplied by the
transport. -/
structure InvokeResult where
  transportActions : List DispatchedOpen
  onSubscribe : Nat → SubscribeSetup

/-- Invoking the method generated for `desc` with `args`: constructs the
Observable (no transport action); each subscription opens one fresh call
per `serviceMethodOpen` with its own `isClientCanceled = false` flag
(source lines 171 and 239; the plain unary shape has no flag, modelled as
the constant `false`). -/
def invokeServiceMethod (desc : MethodDescriptor) (args : List GArg) :
    InvokeResult :=
  { transportActions := [],
    onSubscribe := fun freshId =>
      { callId := freshId,
        opened := serviceMethodOpen desc args,
        isClientCanceled := false } }

/-!
## Client registry and unsupported operations

`ClientGrpcProxy` keeps `clients : Map<string, any>` (service name to
constructed gRPC client) and `grpcClients` (loaded package objects, used
by `getClient` to resolve a service name).  We model the map as an
association list with most-recent-first lookup, client construction as
drawing a fresh identifier `nextId`, and name resolution as membership in
`serviceNames`.
-/

/-- Registry state of the proxy: constructed per-service clients, the next
fresh client identifier, and the service names resolvable through the
loaded gRPC packages. -/
structure ProxyState where
  clients : List (String × Nat)
  nextId : Nat
  serviceNames : List String
deriving DecidableEq, Repr

/-- Transcription of `getClient` (source lines 374-378): find the loaded
package owning `name`; modelled as resolvability of the name. -/
def getClient (s : ProxyState) (name : String) : Bool :=
  s.serviceNames.contains name

/-- Transcription of `createClientByServiceName` (source lines 88-122):
throws `InvalidGrpcServiceException` when the name does not resolve;
otherwise constructs a new client (channel options and credentials are
connection configuration, external to the adapter logic), stores it under
`name`, and returns it. -/
def createClientByServiceName (s : ProxyState) (name : String) :
    Except String (Nat × ProxyState) :=
  if getClient s name then
    Except.ok (s.nextId,
      { s with clients := (name, s.nextId) :: s.clients,
               nextId := s.nextId + 1 })
  else Except.error ("Invalid gRPC service " ++ name)

/-- Transcription of `getClientByServiceName` (source lines 84-86):
`return this.clients.get(name) || this.createClientByServiceName(name);`
(constructed clients are objects, hence truthy). -/
def getClientByServiceName (s : ProxyState) (name : String) :
    Except String (Nat × ProxyState) :=
  match s.clients.lookup name with
  | some c => Except.ok (c, s)
  | none => createClientByServiceName s name

/-- Transcription of `close` (source lines 351-359): closes every cached
client, clears the registry, and drops the loaded packages. -/
def close (s : ProxyState) : ProxyState :=
  { s with clients := [], serviceNames := [] }

/-- Transcription of the `status` getter (source lines 40-44): throws. -/
def statusGet (_s : ProxyState) : Except String (Nat × ProxyState) :=
  Except.error "The \"status\" attribute is not supported by the gRPC transport"

/-- Transcription of `connect` (source lines 361-363): throws. -/
def connect (_s : ProxyState) : Except String (Nat × ProxyState) :=
  Except.error "The \"connect()\" method is not supported in gRPC mode."

/-- Transcription of `send` (source lines 365-372): throws. -/
def send (_s : ProxyState) (_pattern : Nat) (_data : Nat) :
    Except String (Nat × ProxyState) :=
  Except.error "Method is not supported in gRPC mode. Use ClientGrpc instead (learn more in the documentation)."

/-- Transcription of `publish` (source lines 380-384): throws. -/
def publish (_s : ProxyState) (_packet : Nat) :
    Except String (Nat × ProxyState) :=
  Except.error "Method is not supported in gRPC mode. Use ClientGrpc instead (learn more in the documentation)."

/-- Transcription of `dispatchEvent` (source lines 386-390): throws. -/
def dispatchEvent (_s : ProxyState) (_packet : Nat) :
    Except String (Nat × ProxyState) :=
  Except.error "Method is not supported in gRPC mode. Use ClientGrpc instead (learn more in the documentation)."

/-- Transcription of `on` (source lines 392-397): throws. -/
def onEvent (_s : ProxyState) (_event : Nat) :
    Except String (Nat × ProxyState) :=
  Except.error "Method is not supported in gRPC mode."

/-- Transcription of `unwrap` (source lines 399-401): throws. -/
def unwrap (_s : ProxyState) : Except String (Nat × ProxyState) :=
  Except.error "Method is not supported in gRPC mode."

/-!
## Helper lemmas
-/

/-- The teardown body never changes the delivered-event list. -/
theorem streamTeardown_emitted (s : StreamState) :
    (streamTeardown s).emitted = s.emitted := by
  cases hf : s.call.finished <;> simp [streamTeardown, hf]

/-- The teardown body never changes the subscriber-closed flag. -/
theorem streamTeardown_subClosed (s : StreamState) :
    (streamTeardown s).subClosed = s.subClosed := by
  cases hf : s.call.finished <;> simp [streamTeardown, hf]

/-- The teardown body never calls `destroy()`. -/
theorem streamTeardown_destroyed (s : StreamState) :
    (streamTeardown s).call.destroyed = s.call.destroyed := by
  cases hf : s.call.finished <;> simp [streamTeardown, hf]

/-- The teardown body never registers or removes listeners. -/
theorem streamTeardown_listeners (s : StreamState) :
    (streamTeardown s).call.listeners = s.call.listeners := by
  cases hf : s.call.finished <;> simp [streamTeardown, hf]

/-- The teardown body never changes the `finished` flag. -/
theorem streamTeardown_finished (s : StreamState) :
    (streamTeardown s).call.finished = s.call.finished := by
  cases hf : s.call.finished <;> simp [streamTeardown, hf]

/-- Appending one event adds one terminal exactly when it is terminal. -/
theorem terminalCount_append (l : List ObsEvent) (x : ObsEvent) :
    terminalCount (l ++ [x])
      = terminalCount l + (if x.isTerminal then 1 else 0) := by
  unfold terminalCount
  rw [List.filter_append]
  cases hx : x.isTerminal <;> simp [List.filter, hx]

/-- RxJS unsubscribe is idempotent for any teardown body. -/
theorem rxUnsubscribe_idem {σ : Type} (td : σ → σ) (r : RxSub σ) :
    rxUnsubscribe td (rxUnsubscribe td r) = rxUnsubscribe td r := by
  unfold rxUnsubscribe
  split <;> simp

/-!
## Claims
-/

/-- Claim C1 counterexample: the claim states that the error callback of a
unary invocation delivers exactly one error.  In the client-streaming unary
shape, when the error denotes cancellation and `isClientCanceled` is set,
the callback returns after `call.destroy()` and delivers nothing at all:
zero observer calls, zero terminal events — not exactly one error. -/
theorem claim1_counterexample :
    (unaryStreamCallback true
      (some { message := "CANCELLED", details := "Cancelled", code := some 1 }) 5).2 = []
    ∧ terminalCount (unaryStreamCallback true
        (some { message := "CANCELLED", details := "Cancelled", code := some 1 }) 5).2 = 0 := by
  decide

/-- Claim C1 (amended): for every unary invocation, each completion-callback
invocation delivers at most one value, and whenever it delivers a value it
is exactly one `next` followed by one `complete` and nothing else; the
error callback never delivers a value and delivers at most one error —
exactly one, except in the client-streaming shape when the error denotes
cancellation and the consumer had already cancelled, where nothing is
delivered. -/
theorem claim1_unary_response_shape :
    ∀ (canc : Bool) (d : Nat) (e : GrpcError),
      unaryPlainCallback none d = [ObsEvent.next d, ObsEvent.complete]
      ∧ unaryStreamCallback canc none d = (false, [ObsEvent.next d, ObsEvent.complete])
      ∧ unaryPlainCallback (some e) d = [ObsEvent.error (serializeError e)]
      ∧ nextCount (unaryStreamCallback canc (some e) d).2 = 0
      ∧ ((unaryStreamCallback canc (some e) d).2 = []
          ∨ (unaryStreamCallback canc (some e) d).2 = [ObsEvent.error (serializeError e)])
      ∧ ((unaryStreamCallback canc (some e) d).2 = []
          ↔ canc = true ∧ (e.details = GRPC_CANCELLED ∨ e.code = some 1)) := by
  intro canc d e
  refine ⟨rfl, rfl, rfl, ?_, ?_, ?_⟩ <;>
    by_cases hc : e.details = GRPC_CANCELLED ∨ e.code = some 1 <;>
      cases canc <;> simp [unaryStreamCallback, hc, nextCount, ObsEvent.isNext]

/-- Claim C2 counterexample: the claim covers the plain-request unary shape,
but that shape surfaces every error — including one denoting cancellation —
and its teardown cancels an unfinished call without marking any
cancellation state (no such flag exists there, modelled by the flag staying
`false`).  Concretely: a cancellation error is delivered, not silenced, and
the teardown of an unfinished call changes only the cancel count. -/
theorem claim2_counterexample :
    unaryPlainCallback
        (some { message := "CANCELLED", details := "Cancelled", code := some 1 }) 0
      = [ObsEvent.error { message := "CANCELLED", details := "Cancelled", code := some 1 }]
    ∧ unaryPlainTeardownBody
        { finished := false, isClientCanceled := false, cancelCount := 0,
          upstreamSubscribed := false }
      = { finished := false, isClientCanceled := false, cancelCount := 1,
          upstreamSubscribed := false } := by
  decide

/-- Claim C2 (amended): only the client-streaming unary shape has the
claimed behaviour: its error callback tears the Call Handle down silently
(destroy, no error surfaced) when the error denotes cancellation and the
consumer had cancelled, and its teardown of a not-yet-finished call marks
`isClientCanceled` true and issues one `cancel()`.  The plain-request shape
surfaces every error unconditionally, and its teardown cancels an
unfinished call without marking any cancellation state. -/
theorem claim2_unary_cancellation_handling :
    ∀ (e : GrpcError) (d : Nat) (u : UnaryState),
      ((e.details = GRPC_CANCELLED ∨ e.code = some 1) →
        unaryStreamCallback true (some e) d = (true, []))
      ∧ (u.finished = false →
          unaryStreamTeardownBody u
            = { u with upstreamSubscribed := false, isClientCanceled := true,
                       cancelCount := u.cancelCount + 1 })
      ∧ unaryPlainCallback (some e) d = [ObsEvent.error (serializeError e)]
      ∧ (u.finished = false →
          unaryPlainTeardownBody u = { u with cancelCount := u.cancelCount + 1 })
      ∧ (unaryPlainTeardownBody u).isClientCanceled = u.isClientCanceled := by
  intro e d u
  refine ⟨fun hc => by simp [unaryStreamCallback, hc], fun hf => ?_, rfl,
    fun hf => by simp [unaryPlainTeardownBody, hf], ?_⟩
  · simp [unaryStreamTeardownBody, hf]
  · cases hf : u.finished <;> simp [unaryPlainTeardownBody, hf]

/-- Claim C2 witness: the amended theorem applied at a cancellation error
with the consumer-cancelled flag set. -/
theorem claim2_witness :
    (({ message := "c", details := "Cancelled", code := some 1 } : GrpcError).details
        = GRPC_CANCELLED
      ∨ ({ message := "c", details := "Cancelled", code := some 1 } : GrpcError).code = some 1)
    ∧ unaryStreamCallback true
        (some { message := "c", details := "Cancelled", code := some 1 }) 0 = (true, []) :=
  ⟨Or.inl rfl,
    (claim2_unary_cancellation_handling
      { message := "c", details := "Cancelled", code := some 1 } 0
      { finished := false, isClientCanceled := false, cancelCount := 0,
        upstreamSubscribed := false }).1 (Or.inl rfl)⟩

/-- Claim C3 counterexample: the claim states that an error carrying the
transport's generic cancellation status code (code 1) is destroyed and
conditionally suppressed by the streaming adapter.  The streaming error
handler tests only `error.details === 'Cancelled'`: on a fresh subscription
an error with code 1 but different details is not destroyed and is
surfaced. -/
theorem claim3_counterexample :
    (streamOnError (initStreamState false)
        { message := "m", details := "boom", code := some 1 }).call.destroyed = false
    ∧ (streamOnError (initStreamState false)
        { message := "m", details := "boom", code := some 1 }).emitted
      = [ObsEvent.error { message := "m", details := "boom", code := some 1 }] := by
  decide

/-- Claim C3 (amended): in the streaming adapter only an error whose
`details` equal the specific cancellation message `'Cancelled'` causes
`call.destroy()`; such an error is swallowed exactly when
`isClientCanceled` is set, and surfaced (normalized) otherwise.  Every
error with different details — including one carrying the generic
cancellation status code 1, which only the unary adapter consults — leaves
the handle undestroyed and is normalized and surfaced. -/
theorem claim3_stream_error_handling :
    ∀ (s : StreamState) (e : GrpcError),
      (e.details = GRPC_CANCELLED →
        (streamOnError s e).call.destroyed = true
        ∧ (s.isClientCanceled = true → (streamOnError s e).emitted = s.emitted)
        ∧ (s.isClientCanceled = false → s.subClosed = false →
            (streamOnError s e).emitted = s.emitted ++ [ObsEvent.error (serializeError e)]))
      ∧ (e.details ≠ GRPC_CANCELLED →
          (streamOnError s e).call.destroyed = s.call.destroyed
          ∧ (s.subClosed = false →
              (streamOnError s e).emitted = s.emitted ++ [ObsEvent.error (serializeError e)])) := by
  intro s e
  constructor
  · intro hc
    refine ⟨?_, ?_, ?_⟩
    · cases hk : s.isClientCanceled <;>
        simp [streamOnError, hc, hk, obsError, streamTeardown_destroyed]
      cases hs : s.subClosed <;>
        simp [streamTeardown_destroyed]
    · intro hk
      simp [streamOnError, hc, hk]
    · intro hk hs
      simp [streamOnError, hc, hk, obsError, hs, streamTeardown_emitted]
  · intro hc
    constructor
    · simp [streamOnError, hc, obsError]
      cases hs : s.subClosed <;> simp [streamTeardown_destroyed]
    · intro hs
      simp [streamOnError, hc, obsError, hs, streamTeardown_emitted]

/-- Claim C3 witness: the amended theorem applied to a fresh subscription
receiving the specific cancellation error. -/
theorem claim3_witness :
    ({ message := "c", details := "Cancelled", code := none } : GrpcError).details
        = GRPC_CANCELLED
    ∧ (streamOnError (initStreamState false)
        { message := "c", details := "Cancelled", code := none }).call.destroyed = true :=
  ⟨rfl,
    ((claim3_stream_error_handling (initStreamState false)
      { message := "c", details := "Cancelled", code := none }).1 rfl).1⟩

/-- Claim C4: cancelling a Response Stream is idempotent at the
subscription level, issues exactly one `cancel()` when the call is not yet
finished (marking `isClientCanceled` in the shapes that have the flag), and
leaves the Call Handle and the cancellation flag untouched when the call
has already finished.  Covers the streaming adapter machine and both unary
teardown bodies. -/
theorem claim4_cancellation_idempotent :
    ∀ (s : StreamState) (r : RxSub UnaryState),
      stepStream (stepStream s StreamEvent.unsub) StreamEvent.unsub
        = stepStream s StreamEvent.unsub
      ∧ rxUnsubscribe unaryStreamTeardownBody (rxUnsubscribe unaryStreamTeardownBody r)
          = rxUnsubscribe unaryStreamTeardownBody r
      ∧ rxUnsubscribe unaryPlainTeardownBody (rxUnsubscribe unaryPlainTeardownBody r)
          = rxUnsubscribe unaryPlainTeardownBody r
      ∧ (s.subClosed = false → s.call.finished = false →
          (stepStream s StreamEvent.unsub).call.cancelCount = s.call.cancelCount + 1
          ∧ (stepStream s StreamEvent.unsub).isClientCanceled = true)
      ∧ (s.subClosed = false → s.call.finished = true →
          (stepStream s StreamEvent.unsub).call = s.call
          ∧ (stepStream s StreamEvent.unsub).isClientCanceled = s.isClientCanceled)
      ∧ (r.closed = false → r.st.finished = false →
          (rxUnsubscribe unaryStreamTeardownBody r).st.cancelCount = r.st.cancelCount + 1
          ∧ (rxUnsubscribe unaryStreamTeardownBody r).st.isClientCanceled = true
          ∧ (rxUnsubscribe unaryPlainTeardownBody r).st.cancelCount = r.st.cancelCount + 1)
      ∧ (r.closed = false → r.st.finished = true →
          (rxUnsubscribe unaryStreamTeardownBody r).st.cancelCount = r.st.cancelCount
          ∧ (rxUnsubscribe unaryStreamTeardownBody r).st.isClientCanceled
              = r.st.isClientCanceled
          ∧ (rxUnsubscribe unaryPlainTeardownBody r).st = r.st) := by
  intro s r
  refine ⟨?_, rxUnsubscribe_idem _ r, rxUnsubscribe_idem _ r, ?_, ?_, ?_, ?_⟩
  · cases hs : s.subClosed
    · have h1 : (streamTeardown { s with subClosed := true }).subClosed = true := by
        rw [streamTeardown_subClosed]
      simp [stepStream, hs, h1]
    · simp [stepStream, hs]
  · intro hs hf
    simp [stepStream, hs, streamTeardown, hf]
  · intro hs hf
    simp [stepStream, hs, streamTeardown, hf]
  · intro hc hf
    simp [rxUnsubscribe, hc, unaryStreamTeardownBody, unaryPlainTeardownBody, hf]
  · intro hc hf
    simp [rxUnsubscribe, hc, unaryStreamTeardownBody, unaryPlainTeardownBody, hf]

/-- Claim C4 witness: a fresh streaming subscription, unsubscribed before
any terminal event, records exactly one `cancel()`. -/
theorem claim4_witness :
    (initStreamState true).subClosed = false
    ∧ (initStreamState true).call.finished = false
    ∧ (stepStream (initStreamState true) StreamEvent.unsub).call.cancelCount
        = (initStreamState true).call.cancelCount + 1 := by
  refine ⟨rfl, rfl, ?_⟩
  exact ((claim4_cancellation_idempotent (initStreamState true)
    ⟨false, { finished := false, isClientCanceled := false, cancelCount := 0,
              upstreamSubscribed := true }⟩).2.2.2.1 rfl rfl).1

/-- Invariant of one streaming subscription: at most one terminal event has
been delivered, and none while the subscriber is still open. -/
def StreamInv (s : StreamState) : Prop :=
  terminalCount s.emitted ≤ 1 ∧ (s.subClosed = false → terminalCount s.emitted = 0)

/-- `observer.next` preserves the single-termination invariant. -/
theorem obsNext_inv (s : StreamState) (v : Nat) (h : StreamInv s) :
    StreamInv (obsNext s v) := by
  cases hs : s.subClosed
  · have he : obsNext s v = { s with emitted := s.emitted ++ [ObsEvent.next v] } := by
      simp [obsNext, hs]
    have h0 : terminalCount s.emitted = 0 := h.2 hs
    have hn : terminalCount (s.emitted ++ [ObsEvent.next v]) = 0 := by
      rw [terminalCount_append, h0]
      simp [ObsEvent.isTerminal]
    rw [he]
    exact ⟨by rw [show ({ s with emitted := s.emitted ++ [ObsEvent.next v] } : StreamState).emitted
                  = s.emitted ++ [ObsEvent.next v] from rfl, hn]; exact Nat.zero_le 1,
           fun _ => hn⟩
  · have he : obsNext s v = s := by simp [obsNext, hs]
    rw [he]; exact h

/-- `observer.error` preserves the single-termination invariant. -/
theorem obsError_inv (s : StreamState) (e : NormalizedError) (h : StreamInv s) :
    StreamInv (obsError s e) := by
  cases hs : s.subClosed
  · have h0 : terminalCount s.emitted = 0 := h.2 hs
    have he : obsError s e
        = streamTeardown
            { s with subClosed := true, emitted := s.emitted ++ [ObsEvent.error e] } := by
      simp [obsError, hs]
    refine ⟨?_, fun hcl => ?_⟩
    · rw [he, streamTeardown_emitted]
      show terminalCount (s.emitted ++ [ObsEvent.error e]) ≤ 1
      rw [terminalCount_append, h0]
      simp [ObsEvent.isTerminal]
    · exfalso
      rw [he, streamTeardown_subClosed] at hcl
      simp at hcl
  · have he : obsError s e = s := by simp [obsError, hs]
    rw [he]; exact h

/-- `observer.complete` preserves the single-termination invariant. -/
theorem obsComplete_inv (s : StreamState) (h : StreamInv s) :
    StreamInv (obsComplete s) := by
  cases hs : s.subClosed
  · have h0 : terminalCount s.emitted = 0 := h.2 hs
    have he : obsComplete s
        = streamTeardown
            { s with subClosed := true, emitted := s.emitted ++ [ObsEvent.complete] } := by
      simp [obsComplete, hs]
    refine ⟨?_, fun hcl => ?_⟩
    · rw [he, streamTeardown_emitted]
      show terminalCount (s.emitted ++ [ObsEvent.complete]) ≤ 1
      rw [terminalCount_append, h0]
      simp [ObsEvent.isTerminal]
    · exfalso
      rw [he, streamTeardown_subClosed] at hcl
      simp at hcl
  · have he : obsComplete s = s := by simp [obsComplete, hs]
    rw [he]; exact h

/-- The streaming `error` handler preserves the single-termination
invariant. -/
theorem streamOnError_inv (s : StreamState) (e : GrpcError) (h : StreamInv s) :
    StreamInv (streamOnError s e) := by
  have hD : StreamInv { s with call := { s.call with destroyed := true } } := ⟨h.1, h.2⟩
  by_cases hc : e.details = GRPC_CANCELLED
  · cases hk : s.isClientCanceled
    · have he : streamOnError s e
          = obsError { s with call := { s.call with destroyed := true } }
              (serializeError e) := by
        simp [streamOnError, hc, hk]
      rw [he]
      exact obsError_inv _ _ hD
    · have he : streamOnError s e
          = { s with call := { s.call with destroyed := true } } := by
        simp [streamOnError, hc, hk]
      rw [he]; exact hD
  · have he : streamOnError s e = obsError s (serializeError e) := by
      simp [streamOnError, hc]
    rw [he]
    exact obsError_inv _ _ h

/-- The streaming `end` handler preserves the single-termination
invariant. -/
theorem streamOnEnd_inv (s : StreamState) (h : StreamInv s) :
    StreamInv (streamOnEnd s) := by
  have hD : StreamInv { s with upstream := false, call := { s.call with listeners := false } } :=
    ⟨h.1, h.2⟩
  have he : streamOnEnd s
      = obsComplete { s with upstream := false, call := { s.call with listeners := false } } :=
    rfl
  rw [he]
  exact obsComplete_inv _ hD

/-- Every machine step preserves the single-termination invariant. -/
theorem stepStream_inv (s : StreamState) (ev : StreamEvent) (h : StreamInv s) :
    StreamInv (stepStream s ev) := by
  cases ev with
  | data v =>
    cases hl : s.call.listeners
    · have he : stepStream s (StreamEvent.data v) = s := by simp [stepStream, hl]
      rw [he]; exact h
    · have he : stepStream s (StreamEvent.data v) = obsNext s v := by
        simp [stepStream, hl, streamOnData]
      rw [he]; exact obsNext_inv s v h
  | transportError e =>
    have hF : StreamInv { s with call := { s.call with finished := true } } := ⟨h.1, h.2⟩
    cases hl : s.call.listeners
    · have he : stepStream s (StreamEvent.transportError e)
          = { s with call := { s.call with finished := true } } := by
        simp [stepStream, hl]
      rw [he]; exact hF
    · have he : stepStream s (StreamEvent.transportError e)
          = streamOnError { s with call := { s.call with finished := true } } e := by
        simp [stepStream, hl]
      rw [he]; exact streamOnError_inv _ e hF
  | endEv =>
    have hF : StreamInv { s with call := { s.call with finished := true } } := ⟨h.1, h.2⟩
    cases hl : s.call.listeners
    · have he : stepStream s StreamEvent.endEv
          = { s with call := { s.call with finished := true } } := by
        simp [stepStream, hl]
      rw [he]; exact hF
    · have he : stepStream s StreamEvent.endEv
          = streamOnEnd { s with call := { s.call with finished := true } } := by
        simp [stepStream, hl]
      rw [he]; exact streamOnEnd_inv _ hF
  | unsub =>
    cases hs : s.subClosed
    · have he : stepStream s StreamEvent.unsub
          = streamTeardown { s with subClosed := true } := by
        simp [stepStream, hs]
      refine ⟨?_, fun hcl => ?_⟩
      · rw [he, streamTeardown_emitted]
        exact h.1
      · exfalso
        rw [he, streamTeardown_subClosed] at hcl
        simp at hcl
    · have he : stepStream s StreamEvent.unsub = s := by simp [stepStream, hs]
      rw [he]; exact h

/-- Running any stimulus list preserves the single-termination invariant. -/
theorem runStream_inv (evs : List StreamEvent) (s : StreamState) (h : StreamInv s) :
    StreamInv (runStream s evs) := by
  induction evs generalizing s with
  | nil => exact h
  | cons ev rest ih => exact ih (stepStream s ev) (stepStream_inv s ev h)

/-- A fresh subscription satisfies the single-termination invariant. -/
theorem initStreamState_inv (hasUp : Bool) : StreamInv (initStreamState hasUp) :=
  ⟨by simp [initStreamState, terminalCount], fun _ => by simp [initStreamState, terminalCount]⟩

/-- Delivering a transport `end` always leaves the listeners removed. -/
theorem stepStream_end_listeners (s : StreamState) :
    (stepStream s StreamEvent.endEv).call.listeners = false := by
  cases hl : s.call.listeners
  · simp [stepStream, hl]
  · have he : stepStream s StreamEvent.endEv
        = streamOnEnd { s with call := { s.call with finished := true } } := by
      simp [stepStream, hl]
    rw [he]
    unfold streamOnEnd
    cases hs : ({ s with call := { s.call with finished := true } } : StreamState).subClosed
    · simp [obsComplete, hs, streamTeardown_listeners]
    · simp [obsComplete, hs]

/-- Claim C5 counterexample: the claim attributes the no-double-termination
guarantee to the adapter unregistering all transport event listeners on the
first terminal event "whether that terminal event is an error or a graceful
end".  On a fresh streaming subscription, a first terminal event that is an
error leaves the listeners registered: only the `end` handler calls
`call.removeAllListeners()`; the error handler does not. -/
theorem claim5_counterexample :
    (stepStream (initStreamState false)
        (StreamEvent.transportError
          { message := "m", details := "boom", code := none })).call.listeners = true
    ∧ terminalCount (stepStream (initStreamState false)
        (StreamEvent.transportError
          { message := "m", details := "boom", code := none })).emitted = 1 := by
  decide

/-- Claim C5 (amended): for every streaming invocation, the Response Stream
never delivers a second terminal event: over any sequence of transport
events and consumer unsubscriptions, at most one terminal event reaches the
consumer.  Transport event listeners are unregistered on a graceful `end`;
after an error they remain registered, and the absence of a second terminal
event is instead guaranteed by the closed subscriber dropping all
subsequent observer calls. -/
theorem claim5_single_termination :
    ∀ (hasUp : Bool) (evs : List StreamEvent) (s : StreamState),
      terminalCount (runStream (initStreamState hasUp) evs).emitted ≤ 1
      ∧ (stepStream s StreamEvent.endEv).call.listeners = false :=
  fun hasUp evs s =>
    ⟨(runStream_inv evs (initStreamState hasUp) (initStreamState_inv hasUp)).1,
     stepStream_end_listeners s⟩

/-- Forwarding a run of plain values writes them all, in order, with no
other call action, leaving the subscription live. -/
theorem upstream_writes_all (vs : List Nat) (a : UpstreamActions)
    (h : a.stopped = false) :
    (vs.map UpstreamEvent.next).foldl upstreamStep a = { a with writes := a.writes ++ vs } := by
  induction vs generalizing a with
  | nil => simp
  | cons v rest ih =>
    have hstep : upstreamStep a (UpstreamEvent.next v)
        = { a with writes := a.writes ++ [v] } := by
      simp [upstreamStep, h]
    have hs : ({ a with writes := a.writes ++ [v] } : UpstreamActions).stopped = false := h
    calc ((v :: rest).map UpstreamEvent.next).foldl upstreamStep a
        = (rest.map UpstreamEvent.next).foldl upstreamStep
            { a with writes := a.writes ++ [v] } := by rw [List.map_cons, List.foldl_cons, hstep]
      _ = { a with writes := (a.writes ++ [v]) ++ rest } := ih _ hs
      _ = { a with writes := a.writes ++ (v :: rest) } := by
          rw [List.append_assoc]
          rfl

/-- The upstream subscription never performs `call.end()` twice. -/
theorem upstream_end_at_most_once (evs : List UpstreamEvent) (a : UpstreamActions)
    (h : a.endCount ≤ 1) (h0 : a.stopped = false → a.endCount = 0) :
    (evs.foldl upstreamStep a).endCount ≤ 1 := by
  induction evs generalizing a with
  | nil => exact h
  | cons ev rest ih =>
    cases ev with
    | next v =>
      cases hs : a.stopped
      · exact ih { a with writes := a.writes ++ [v] } (by simpa using h) (fun _ => h0 hs) |>.trans
          (Nat.le_refl 1) |>.trans (Nat.le_refl 1) |> fun hx => by
            simpa [upstreamStep, hs] using hx
      · have : upstreamStep a (UpstreamEvent.next v) = a := by simp [upstreamStep, hs]
        rw [List.foldl_cons, this]
        exact ih a h h0
    | uerror e =>
      cases hs : a.stopped
      · have hst : upstreamStep a (UpstreamEvent.uerror e)
            = { a with emittedErrors := a.emittedErrors ++ [e], stopped := true } := by
          simp [upstreamStep, hs]
        rw [List.foldl_cons, hst]
        exact ih _ (by simpa using h) (fun hc => by simp at hc)
      · have : upstreamStep a (UpstreamEvent.uerror e) = a := by simp [upstreamStep, hs]
        rw [List.foldl_cons, this]
        exact ih a h h0
    | complete =>
      cases hs : a.stopped
      · have hst : upstreamStep a UpstreamEvent.complete
            = { a with endCount := a.endCount + 1, stopped := true } := by
          simp [upstreamStep, hs]
        rw [List.foldl_cons, hst]
        exact ih _ (by simp [h0 hs]) (fun hc => by simp at hc)
      · have : upstreamStep a UpstreamEvent.complete = a := by simp [upstreamStep, hs]
        rw [List.foldl_cons, this]
        exact ih a h h0

/-- Claim C6: on a request-streaming method whose first argument exposes
`subscribe`, the streaming adapter opens the call once with only the
metadata (never the emitted values); the upstream subscription forwards
each emitted value as one `write` in emission order, forwards a
request-stream error as a call-level `emit('error')`, ends the call exactly
once when the request stream completes, and never ends it more than once;
the unary client-streaming shape likewise opens with only metadata and the
completion callback, independent of the stream and any further positional
arguments. -/
theorem claim6_request_streaming :
    ∀ (args : List GArg) (vs : List Nat) (e : GrpcError) (evs : List UpstreamEvent)
      (a b : GArg) (rest : List GArg),
      (isUpstreamSubject args = true →
        streamCallOpen true args = OpenArgs.metadataOnly (args.get? 1))
      ∧ runUpstream ((vs.map UpstreamEvent.next) ++ [UpstreamEvent.complete])
          = { writes := vs, emittedErrors := [], endCount := 1, stopped := true }
      ∧ runUpstream ((vs.map UpstreamEvent.next) ++ [UpstreamEvent.uerror e])
          = { writes := vs, emittedErrors := [e], endCount := 0, stopped := true }
      ∧ (runUpstream evs).endCount ≤ 1
      ∧ unaryStreamCallArgs (a :: b :: rest)
          = [UnaryOpenArg.metadataArg b, UnaryOpenArg.callbackArg] := by
  intro args vs e evs a b rest
  have hmid : (vs.map UpstreamEvent.next).foldl upstreamStep initUpstream
      = { initUpstream with writes := vs } := by
    have := upstream_writes_all vs initUpstream rfl
    simpa [initUpstream] using this
  refine ⟨fun hu => by simp [streamCallOpen, hu], ?_, ?_, ?_, rfl⟩
  · show ((vs.map UpstreamEvent.next) ++ [UpstreamEvent.complete]).foldl upstreamStep initUpstream
        = _
    rw [List.foldl_append, hmid]
    simp [upstreamStep, initUpstream]
  · show ((vs.map UpstreamEvent.next) ++ [UpstreamEvent.uerror e]).foldl upstreamStep initUpstream
        = _
    rw [List.foldl_append, hmid]
    simp [upstreamStep, initUpstream]
  · exact upstream_end_at_most_once evs initUpstream (by simp [initUpstream]) (fun _ => rfl)

/-- Claim C6 witness: a request-streaming invocation whose first argument
is a request stream opens the call with only the metadata argument. -/
theorem claim6_witness :
    isUpstreamSubject [GArg.stream [], GArg.metadata 3] = true
    ∧ streamCallOpen true [GArg.stream [], GArg.metadata 3]
        = OpenArgs.metadataOnly (some (GArg.metadata 3)) :=
  ⟨rfl,
    (claim6_request_streaming [GArg.stream [], GArg.metadata 3] [] { message := "", details := "", code := none }
      [] (GArg.data 0) (GArg.data 0) []).1 rfl⟩

/-- Claim C7: dispatch routes on the Method Descriptor's `responseStream`
flag alone — streaming adapter when true, unary adapter when false — and
the routing, fixed at service-method construction, is a pure function of
that one flag (two descriptors agreeing on `responseStream` dispatch
identically, whatever their other attributes or the eventual arguments). -/
theorem claim7_dispatch :
    ∀ (desc : MethodDescriptor) (args : List GArg),
      (desc.responseStream = true →
        createServiceMethod desc = ServiceMethodKind.streaming
        ∧ serviceMethodOpen desc args
            = DispatchedOpen.streamingOpen (streamCallOpen desc.requestStream args))
      ∧ (desc.responseStream = false →
          createServiceMethod desc = ServiceMethodKind.unary
          ∧ serviceMethodOpen desc args
              = (if desc.requestStream && isUpstreamSubject args then
                  DispatchedOpen.unaryStreamOpen (unaryStreamCallArgs args)
                else DispatchedOpen.unaryPlainOpen args))
      ∧ (∀ d2 : MethodDescriptor, d2.responseStream = desc.responseStream →
          createServiceMethod d2 = createServiceMethod desc) := by
  intro desc args
  refine ⟨fun hr => ?_, fun hr => ?_, fun d2 h2 => ?_⟩
  · constructor
    · simp [createServiceMethod, hr]
    · simp [serviceMethodOpen, createServiceMethod, hr]
  · constructor
    · simp [createServiceMethod, hr]
    · simp [serviceMethodOpen, createServiceMethod, hr]
  · simp [createServiceMethod, h2]

/-- Claim C7 witness: a descriptor with `responseStream = true` dispatches
to the streaming adapter. -/
theorem claim7_witness :
    ({ requestStream := false, responseStream := true } : MethodDescriptor).responseStream = true
    ∧ createServiceMethod { requestStream := false, responseStream := true }
        = ServiceMethodKind.streaming :=
  ⟨rfl,
    ((claim7_dispatch { requestStream := false, responseStream := true } []).1 rfl).1⟩

/-- Claim C8: invoking a generated service method performs no transport
action — both adapters immediately wrap their work in an Observable whose
subscriber function the `Observable` constructor stores unrun, so no call
is opened and nothing is written at invocation time — and each subscription
sets up its own fresh Call Handle and its own cancellation flag starting at
`false` (distinct subscriptions bind distinct handles). -/
theorem claim8_lazy_invocation :
    ∀ (desc : MethodDescriptor) (args : List GArg) (id1 id2 : Nat),
      (invokeServiceMethod desc args).transportActions = []
      ∧ ((invokeServiceMethod desc args).onSubscribe id1).callId = id1
      ∧ ((invokeServiceMethod desc args).onSubscribe id1).isClientCanceled = false
      ∧ ((invokeServiceMethod desc args).onSubscribe id1).opened = serviceMethodOpen desc args
      ∧ (id1 ≠ id2 →
          ((invokeServiceMethod desc args).onSubscribe id1).callId
            ≠ ((invokeServiceMethod desc args).onSubscribe id2).callId)
      ∧ (initStreamState (desc.requestStream && isUpstreamSubject args)).isClientCanceled
          = false
      ∧ (initStreamState (desc.requestStream && isUpstreamSubject args)).call = initCall := by
  intro desc args id1 id2
  exact ⟨rfl, rfl, rfl, rfl, fun h => h, rfl, rfl⟩

/-- Claim C8 witness: two distinct subscriptions of one invocation bind
distinct Call Handles. -/
theorem claim8_witness :
    (0 : Nat) ≠ 1
    ∧ ((invokeServiceMethod { requestStream := false, responseStream := false } []).onSubscribe 0).callId
        ≠ ((invokeServiceMethod { requestStream := false, responseStream := false } []).onSubscribe 1).callId :=
  ⟨by decide,
    (claim8_lazy_invocation { requestStream := false, responseStream := false } [] 0 1).2.2.2.2.1
      (by decide)⟩

/-- Claim C9: every connection-oriented or pub/sub-oriented operation on
the proxy — `connect`, `send`, `publish`, `dispatchEvent`, `on`, `unwrap`,
and the `status` getter — fails synchronously with its descriptive "not
supported" error, for every state and argument; the thrown result carries
no state, so nothing is mutated and no call is opened. -/
theorem claim9_unsupported_operations :
    ∀ (s : ProxyState) (p d pk ev : Nat),
      connect s = Except.error "The \"connect()\" method is not supported in gRPC mode."
      ∧ send s p d
          = Except.error "Method is not supported in gRPC mode. Use ClientGrpc instead (learn more in the documentation)."
      ∧ publish s pk
          = Except.error "Method is not supported in gRPC mode. Use ClientGrpc instead (learn more in the documentation)."
      ∧ dispatchEvent s pk
          = Except.error "Method is not supported in gRPC mode. Use ClientGrpc instead (learn more in the documentation)."
      ∧ onEvent s ev = Except.error "Method is not supported in gRPC mode."
      ∧ unwrap s = Except.error "Method is not supported in gRPC mode."
      ∧ statusGet s
          = Except.error "The \"status\" attribute is not supported by the gRPC transport" := by
  intro s p d pk ev
  exact ⟨rfl, rfl, rfl, rfl, rfl, rfl, rfl⟩

/-- Claim C10: `getClientByServiceName` memoizes: a cached name returns the
identical cached client with the state unchanged (no construction); an
uncached resolvable name constructs one fresh client, caches it, and every
subsequent call returns that same client without constructing another; and
`close` clears the registry. -/
theorem claim10_client_memoization :
    ∀ (s : ProxyState) (name : String) (c : Nat),
      (s.clients.lookup name = some c →
        getClientByServiceName s name = Except.ok (c, s))
      ∧ (s.clients.lookup name = none → getClient s name = true →
          getClientByServiceName s name
            = Except.ok (s.nextId,
                { s with clients := (name, s.nextId) :: s.clients, nextId := s.nextId + 1 })
          ∧ getClientByServiceName
              { s with clients := (name, s.nextId) :: s.clients, nextId := s.nextId + 1 } name
              = Except.ok (s.nextId,
                  { s with clients := (name, s.nextId) :: s.clients,
                           nextId := s.nextId + 1 }))
      ∧ (close s).clients = [] := by
  intro s name c
  refine ⟨fun hc => ?_, fun hn hg => ⟨?_, ?_⟩, rfl⟩
  · simp [getClientByServiceName, hc]
  · simp [getClientByServiceName, hn, createClientByServiceName, hg]
  · simp [getClientByServiceName, List.lookup]

/-- Claim C10 witness: with one resolvable service and an empty cache, the
first call constructs and caches client 0 and the second call returns the
identical cached client with the registry unchanged. -/
theorem claim10_witness :
    (({ clients := [], nextId := 0, serviceNames := ["Math"] } : ProxyState).clients.lookup "Math"
        = none)
    ∧ getClient { clients := [], nextId := 0, serviceNames := ["Math"] } "Math" = true
    ∧ getClientByServiceName { clients := [], nextId := 0, serviceNames := ["Math"] } "Math"
        = Except.ok (0, { clients := [("Math", 0)], nextId := 1, serviceNames := ["Math"] })
    ∧ getClientByServiceName { clients := [("Math", 0)], nextId := 1, serviceNames := ["Math"] }
        "Math"
        = Except.ok (0, { clients := [("Math", 0)], nextId := 1, serviceNames := ["Math"] }) := by
  refine ⟨rfl, rfl, ?_, ?_⟩
  · exact ((claim10_client_memoization
      { clients := [], nextId := 0, serviceNames := ["Math"] } "Math" 0).2.1 rfl rfl).1
  · exact ((claim10_client_memoization
      { clients := [], nextId := 0, serviceNames := ["Math"] } "Math" 0).2.1 rfl rfl).2
